import Mathlib

/-!
Shallow embedding of `mousestyles/data/__init__.py`, the data-loading and
interval-annotation module of the `mousestyles` repository.

Python floats are modelled as rationals (`ℚ`); Python numbers that may be
either `int` or `float` (the subject-day keys checked with `type(x) != int`)
are modelled by the sum type `PyNum`.  The filesystem read by the loaders is
modelled as an explicit environment `DataEnv`: `movement` stands for the four
`txy_coords` arrays of one subject-day, and `intervalFiles` for the directory
listing of `intervals/<feature>/`, each file already parsed into its
`(strain, mouse, day)` key and its `(start, stop)` rows (filename parsing and
array loading are external collaborators in the spec's scope).  Fallible
loaders return `Except LoadError`.
-/

set_option autoImplicit false

namespace Mousestyles

/-- Python numeric value that is either an `int` or a `float` (rational). -/
inductive PyNum where
  | int : Int → PyNum
  | float : ℚ → PyNum
  deriving DecidableEq

/-- Numeric value of a `PyNum`, as used by comparisons such as `strain < 0`. -/
def PyNum.val : PyNum → ℚ
  | .int n => (n : ℚ)
  | .float q => q

/-- Python `type(x) == int` test. -/
def PyNum.isInt : PyNum → Bool
  | .int _ => true
  | .float _ => false

/-- Python exceptions raised by the loaders: `ValueError` or `TypeError`,
each carrying its message. -/
inductive LoadError where
  | valueError : String → LoadError
  | typeError : String → LoadError
  deriving DecidableEq

/-- An interval with a `start` and a `stop` time, one row of the
two-column frame handed to the `Intervals` class. -/
structure Interval where
  start : ℚ
  stop : ℚ
  deriving DecidableEq

/-- One row of the frame returned by `load_intervals`: subject-day key plus
the interval bounds. -/
structure IntervalRow where
  strain : Int
  mouse : Int
  day : Int
  start : ℚ
  stop : ℚ
  deriving DecidableEq

/-- One file of `intervals/<feature>/`: the `(strain, mouse, day)` key parsed
from its name and the `(start, stop)` pairs stored in the array. -/
structure IntervalFile where
  strain : Int
  mouse : Int
  day : Int
  rows : List (ℚ × ℚ)
  deriving DecidableEq

/-- The four per-subject-day arrays read by `load_movement`: `CT`, `CX`, `CY`
and the stored NOT-home-base indicator `C_idx_HB` (negated by the loader). -/
structure MovementData where
  CT : List ℚ
  CX : List ℚ
  CY : List ℚ
  NHB : List Bool
  deriving DecidableEq

/-- The on-disk data the loaders read, made explicit. -/
structure DataEnv where
  movement : PyNum → PyNum → PyNum → MovementData
  intervalFiles : String → List IntervalFile

/-- The recognized interval features, `INTERVAL_FEATURES` in the source. -/
def INTERVAL_FEATURES : List String := ["AS", "F", "IS", "M_AS", "M_IS", "W"]

/-- Source line 190: `interval['start'] < t and t < interval['stop']`. -/
def _in_interval (t : ℚ) (interval : Interval) : Bool :=
  decide (interval.start < t) && decide (t < interval.stop)

/-- Modelled from the spec: the `contains` method of the `Intervals` class
(module `mousestyles.intervals`, not present under `src/`).  Per the spec it
"returns true if and only if there exists at least one interval
`(start, stop)` in the set with `start < t AND t < stop`", both comparisons
strict, evaluated by a linear scan in the stored order. -/
def Intervals.contains (ints : List Interval) (t : ℚ) : Bool :=
  ints.any (fun iv => decide (iv.start < t) && decide (t < iv.stop))

/-- Projection of `intervals[['start', 'stop']]`: the two-column frame the
`Intervals` constructor receives. -/
def rowsToIntervals (rows : List IntervalRow) : List Interval :=
  rows.map (fun r => ⟨r.start, r.stop⟩)

/-- Source lines 193-227: build `Intervals` from the `start`/`stop` columns
and map its `contains` over `times`. -/
def _lookup_intervals (times : List ℚ) (intervals : List IntervalRow) : List Bool :=
  times.map (Intervals.contains (rowsToIntervals intervals))

/-- Message of the `ValueError` raised by `load_intervals` on an
unrecognized feature name. -/
def invalidFeatureMsg : String :=
  "Input value must be one of \x7b\"AS\", \"F\", \"IS\", \"M_AS\", \"M_IS\", \"W\"\x7d"

/-- Message of the `ValueError` raised by `load_intervals` when the feature
directory holds no files. -/
def emptyDirMsg : String := "Directory is empty; no file found."

/-- Rows contributed by one interval file: its key replicated against its
`(start, stop)` array. -/
def fileRows (f : IntervalFile) : List IntervalRow :=
  f.rows.map (fun p => ⟨f.strain, f.mouse, f.day, p.1, p.2⟩)

/-- Lexicographic key order used by `dt.sort(["strain", "mouse", "day"])`. -/
def keyLe (a b : IntervalRow) : Bool :=
  decide (a.strain < b.strain) ||
    (a.strain == b.strain &&
      (decide (a.mouse < b.mouse) ||
        (a.mouse == b.mouse && decide (a.day ≤ b.day))))

/-- Stable insertion of a row into a key-sorted list (rows with an equal key
keep their original relative order). -/
def insertRow (r : IntervalRow) : List IntervalRow → List IntervalRow
  | [] => [r]
  | x :: xs => if keyLe x r then x :: insertRow r xs else r :: x :: xs

/-- Stable sort by `(strain, mouse, day)`, modelling the external
`dt.sort(["strain", "mouse", "day"])` call. -/
def sortRows : List IntervalRow → List IntervalRow
  | [] => []
  | x :: xs => insertRow x (sortRows xs)

/-- Source lines 70-125: `load_intervals(feature)`.  Rejects an unrecognized
feature, rejects an empty feature directory, otherwise concatenates every
file's rows and sorts by subject-day key. -/
def load_intervals (env : DataEnv) (feature : String) :
    Except LoadError (List IntervalRow) :=
  if feature ∈ INTERVAL_FEATURES then
    let file_names := env.intervalFiles feature
    if file_names.length = 0 then
      .error (.valueError emptyDirMsg)
    else
      .ok (sortRows ((file_names.map fileRows).flatten))
  else
    .error (.valueError invalidFeatureMsg)

/-- The movement frame of `load_movement`, possibly widened by feature
columns appended by `load_movement_and_intervals`.  `extra` holds the
appended boolean columns in column order. -/
structure MovementFrame where
  t : List ℚ
  x : List ℚ
  y : List ℚ
  isHB : List Bool
  extra : List (String × List Bool)
  deriving DecidableEq

/-- Column names of a frame, original movement columns first. -/
def MovementFrame.columns (fr : MovementFrame) : List String :=
  ["t", "x", "y", "isHB"] ++ fr.extra.map Prod.fst

/-- Pandas column assignment `movements[f] = col` for a feature column:
replaces the column when the name is already present, otherwise appends it. -/
def setCol (fr : MovementFrame) (name : String) (col : List Bool) :
    MovementFrame :=
  if name ∈ fr.extra.map Prod.fst then
    { fr with extra := fr.extra.map (fun p => if p.1 = name then (name, col) else p) }
  else
    { fr with extra := fr.extra ++ [(name, col)] }

/-- Source lines 128-186: `load_movement(strain, mouse, day)`.  Checks the
value conditions first (`ValueError` on a negative key), then the type
conditions (`TypeError` on a non-`int` key), then assembles the frame from
the four arrays, negating the stored NOT-home-base indicator. -/
def load_movement (env : DataEnv) (strain mouse day : PyNum) :
    Except LoadError MovementFrame :=
  if strain.val < 0 ∨ mouse.val < 0 ∨ day.val < 0 then
    .error (.valueError "Input values need to be nonnegative")
  else if strain.isInt = false ∨ mouse.isInt = false ∨ day.isInt = false then
    .error (.typeError "Input values need to be integer")
  else
    .ok ⟨(env.movement strain mouse day).CT, (env.movement strain mouse day).CX,
      (env.movement strain mouse day).CY,
      (env.movement strain mouse day).NHB.map not, []⟩

/-- One iteration of the feature loop of `load_movement_and_intervals`:
load the feature's intervals, filter them to the subject-day of the trace,
and assign the looked-up boolean column. -/
def annotateStep (env : DataEnv) (sv mv dv : ℚ) (movements : MovementFrame)
    (f : String) : Except LoadError MovementFrame :=
  match load_intervals env f with
  | .error e => .error e
  | .ok intervals =>
      let mouse_intervals := intervals.filter
        (fun r => ((r.strain : ℚ) == sv) && ((r.mouse : ℚ) == mv) &&
          ((r.day : ℚ) == dv))
      .ok (setCol movements f (_lookup_intervals movements.t mouse_intervals))

/-- The `for f in features` loop of `load_movement_and_intervals`, with the
first raised error propagated. -/
def annotateLoop (env : DataEnv) (sv mv dv : ℚ) (movements : MovementFrame) :
    List String → Except LoadError MovementFrame
  | [] => .ok movements
  | f :: fs =>
      match annotateStep env sv mv dv movements f with
      | .error e => .error e
      | .ok m2 => annotateLoop env sv mv dv m2 fs

/-- Source lines 230-286: `load_movement_and_intervals(strain, mouse, day,
features)`. -/
def load_movement_and_intervals (env : DataEnv) (strain mouse day : PyNum)
    (features : List String) : Except LoadError MovementFrame :=
  match load_movement env strain mouse day with
  | .error e => .error e
  | .ok movements => annotateLoop env strain.val mouse.val day.val movements features

/-- Concrete movement data used by witnesses: two samples. -/
def mdata0 : MovementData := ⟨[1/2, 5/2], [0, 0], [0, 0], [true, false]⟩

/-- Concrete data environment used by witnesses: every feature directory
holds one file for subject-day `(0, 0, 0)` with the single interval
`(1, 2)`. -/
def env0 : DataEnv := ⟨fun _ _ _ => mdata0, fun _ => [⟨0, 0, 0, [(1, 2)]⟩]⟩

/-- Concrete data environment whose interval directories are all empty. -/
def envEmpty : DataEnv := ⟨fun _ _ _ => mdata0, fun _ => []⟩

/-- The movement frame `load_movement env0 0 0 0` produces. -/
def M0 : MovementFrame := ⟨[1/2, 5/2], [0, 0], [0, 0], [false, true], []⟩

/-- C1: the containment query returns true iff some interval `(start, stop)`
satisfies `start < t` and `t < stop`, both strict; for the single interval
`(2, 3)` the query on `2` is false, on `3` is false, on `2.5` is true. -/
theorem contains_iff_exists_strict :
    (∀ (t : ℚ) (ints : List Interval),
      Intervals.contains ints t = true ↔
        ∃ iv ∈ ints, iv.start < t ∧ t < iv.stop) ∧
    Intervals.contains [⟨2, 3⟩] 2 = false ∧
    Intervals.contains [⟨2, 3⟩] 3 = false ∧
    Intervals.contains [⟨2, 3⟩] (2.5 : ℚ) = true := by
  refine ⟨fun t ints => ?_, by decide, by decide, by norm_num [Intervals.contains]⟩
  simp [Intervals.contains, List.any_eq_true]

/-- C2: the batch query returns a boolean list of the same length and order
as the input timestamps, whose i-th element is the single-point containment
query applied to the i-th timestamp. -/
theorem lookup_intervals_pointwise :
    ∀ (times : List ℚ) (rows : List IntervalRow),
      (_lookup_intervals times rows).length = times.length ∧
      ∀ i : Nat, (_lookup_intervals times rows)[i]? =
        (times[i]?).map (Intervals.contains (rowsToIntervals rows)) := by
  intro times rows
  refine ⟨by simp [_lookup_intervals], fun i => ?_⟩
  simp [_lookup_intervals]

/-- C3: an interval set built from zero intervals reports every query,
including the query at `0`, as not contained, and the batch query against it
yields an all-false column of the same length as the input. -/
theorem empty_intervals_all_false :
    (∀ t : ℚ, Intervals.contains [] t = false) ∧
    Intervals.contains [] 0 = false ∧
    (∀ times : List ℚ,
      _lookup_intervals times [] = List.replicate times.length false) := by
  refine ⟨fun t => rfl, rfl, fun times => ?_⟩
  show times.map (fun _ => false) = List.replicate times.length false
  exact List.map_const' times false

/-- C9: the containment query is total: for every rational timestamp and
every interval collection it agrees with the linear scan of the source's
`_in_interval` predicate and evaluates to one of the two booleans; it is a
plain total function, with no error outcome in its type. -/
theorem contains_total :
    ∀ (t : ℚ) (ints : List Interval),
      Intervals.contains ints t = ints.any (fun iv => _in_interval t iv) ∧
      (Intervals.contains ints t = true ∨ Intervals.contains ints t = false) := by
  intro t ints
  exact ⟨rfl, Bool.eq_false_or_eq_true _⟩

/-- C4: annotation with an empty feature list is the identity: the result is
exactly the frame `load_movement` returns, errors included. -/
theorem lmi_empty_features_eq_load_movement :
    ∀ (env : DataEnv) (strain mouse day : PyNum),
      load_movement_and_intervals env strain mouse day [] =
        load_movement env strain mouse day := by
  intro env s m d
  unfold load_movement_and_intervals
  cases h : load_movement env s m d <;> simp [annotateLoop]

/-- The feature loop appends, for each requested feature, exactly one
boolean column of the trace's length, leaving every other field of the frame
untouched, provided the features are recognized, pairwise distinct, not yet
present, and their directories are nonempty. -/
theorem annotateLoop_spec (env : DataEnv) (sv mv dv : ℚ) :
    ∀ (features : List String) (movements : MovementFrame),
      (∀ f ∈ features, f ∈ INTERVAL_FEATURES) →
      features.Nodup →
      (∀ f ∈ features, env.intervalFiles f ≠ []) →
      (∀ f ∈ features, f ∉ movements.extra.map Prod.fst) →
      ∃ newcols : List (String × List Bool),
        annotateLoop env sv mv dv movements features =
          .ok ⟨movements.t, movements.x, movements.y, movements.isHB,
            movements.extra ++ newcols⟩ ∧
        newcols.map Prod.fst = features ∧
        ∀ p ∈ newcols, p.2.length = movements.t.length := by
  intro features
  induction features with
  | nil =>
      intro mvfr _ _ _ _
      exact ⟨[], by simp [annotateLoop], rfl, by simp⟩
  | cons f fs ih =>
      intro mvfr hrec hnodup hfiles hnew
      have hfI : f ∈ INTERVAL_FEATURES := hrec f (List.mem_cons_self f fs)
      have hfe : env.intervalFiles f ≠ [] := hfiles f (List.mem_cons_self f fs)
      have hlen0 : ¬((env.intervalFiles f).length = 0) := by
        intro h
        exact hfe (List.length_eq_zero.mp h)
      have hli : load_intervals env f =
          .ok (sortRows (((env.intervalFiles f).map fileRows).flatten)) := by
        unfold load_intervals
        rw [if_pos hfI, if_neg hlen0]
      have hfnot : f ∉ mvfr.extra.map Prod.fst := hnew f (List.mem_cons_self f fs)
      obtain ⟨col, hstep, hcollen⟩ :
          ∃ col, annotateStep env sv mv dv mvfr f = .ok (setCol mvfr f col) ∧
            col.length = mvfr.t.length :=
        ⟨_lookup_intervals mvfr.t
            ((sortRows (((env.intervalFiles f).map fileRows).flatten)).filter
              (fun r => ((r.strain : ℚ) == sv) && ((r.mouse : ℚ) == mv) &&
                ((r.day : ℚ) == dv))),
          by simp [annotateStep, hli],
          by simp [_lookup_intervals]⟩
      have hset : setCol mvfr f col =
          ⟨mvfr.t, mvfr.x, mvfr.y, mvfr.isHB, mvfr.extra ++ [(f, col)]⟩ := by
        simp [setCol, hfnot]
      have hdisj : ∀ g ∈ fs,
          g ∉ (⟨mvfr.t, mvfr.x, mvfr.y, mvfr.isHB,
            mvfr.extra ++ [(f, col)]⟩ : MovementFrame).extra.map Prod.fst := by
        intro g hg
        simp only [List.map_append, List.mem_append]
        rintro (hg1 | hg2)
        · exact hnew g (List.mem_cons_of_mem f hg) hg1
        · have : g = f := by simpa using hg2
          exact (List.nodup_cons.mp hnodup).1 (this ▸ hg)
      obtain ⟨newcols, hloop, hmap, hlens⟩ :=
        ih ⟨mvfr.t, mvfr.x, mvfr.y, mvfr.isHB, mvfr.extra ++ [(f, col)]⟩
          (fun g hg => hrec g (List.mem_cons_of_mem f hg))
          (List.nodup_cons.mp hnodup).2
          (fun g hg => hfiles g (List.mem_cons_of_mem f hg))
          hdisj
      refine ⟨(f, col) :: newcols, ?_, by simp [hmap], ?_⟩
      · have hstep2 : annotateLoop env sv mv dv mvfr (f :: fs) =
            annotateLoop env sv mv dv
              ⟨mvfr.t, mvfr.x, mvfr.y, mvfr.isHB, mvfr.extra ++ [(f, col)]⟩ fs := by
          simp [annotateLoop, hstep, hset]
        rw [hstep2, hloop]
        simp
      · intro p hp
        rcases List.mem_cons.mp hp with rfl | hp2
        · exact hcollen
        · exact hlens p hp2

/-- C5: for a valid subject-day key and recognized, distinct features with
nonempty sources, the annotated frame keeps the original movement columns
first with their values unchanged, appends one boolean column per requested
feature in request order, and every appended column has the trace's length
(row count and order preserved). -/
theorem lmi_column_structure :
    ∀ (env : DataEnv) (a b c : Int) (features : List String) (M : MovementFrame),
      (∀ f ∈ features, f ∈ INTERVAL_FEATURES) →
      features.Nodup →
      (∀ f ∈ features, env.intervalFiles f ≠ []) →
      load_movement env (.int a) (.int b) (.int c) = .ok M →
      ∃ R : MovementFrame,
        load_movement_and_intervals env (.int a) (.int b) (.int c) features =
          .ok R ∧
        R.t = M.t ∧ R.x = M.x ∧ R.y = M.y ∧ R.isHB = M.isHB ∧
        R.columns = ["t", "x", "y", "isHB"] ++ features ∧
        ∀ p ∈ R.extra, p.2.length = M.t.length := by
  intro env a b c features M hrec hnodup hfiles hM
  have hMex : M.extra = [] := by
    unfold load_movement at hM
    split_ifs at hM
    all_goals first
      | exact Except.noConfusion hM
      | (rw [Except.ok.injEq] at hM; rw [← hM])
  have hlmi : load_movement_and_intervals env (.int a) (.int b) (.int c) features =
      annotateLoop env (PyNum.int a).val (PyNum.int b).val (PyNum.int c).val
        M features := by
    unfold load_movement_and_intervals
    rw [hM]
  obtain ⟨newcols, hloop, hmap, hlens⟩ :=
    annotateLoop_spec env _ _ _ features M hrec hnodup hfiles (by simp [hMex])
  refine ⟨⟨M.t, M.x, M.y, M.isHB, M.extra ++ newcols⟩, ?_, rfl, rfl, rfl, rfl, ?_, ?_⟩
  · rw [hlmi, hloop]
  · simp [MovementFrame.columns, hMex, hmap]
  · intro p hp
    rw [hMex] at hp
    simp only [List.nil_append] at hp
    exact hlens p hp

/-- C5 witness: one recognized feature against the concrete environment. -/
theorem lmi_column_structure_witness :
    ∃ R : MovementFrame,
      load_movement_and_intervals env0 (.int 0) (.int 0) (.int 0) ["AS"] =
        .ok R ∧
      R.t = M0.t ∧ R.x = M0.x ∧ R.y = M0.y ∧ R.isHB = M0.isHB ∧
      R.columns = ["t", "x", "y", "isHB"] ++ ["AS"] ∧
      ∀ p ∈ R.extra, p.2.length = M0.t.length :=
  lmi_column_structure env0 0 0 0 ["AS"] M0 (by decide) (by decide)
    (by decide) (by rfl)

/-- The feature loop never succeeds when some requested feature is
unrecognized: the loop stops with an error at or before that feature. -/
theorem annotateLoop_unrecognized (env : DataEnv) (sv mv dv : ℚ) :
    ∀ (features : List String) (movements : MovementFrame) (f : String),
      f ∈ features → f ∉ INTERVAL_FEATURES →
      ∀ R, annotateLoop env sv mv dv movements features ≠ .ok R := by
  intro features
  induction features with
  | nil =>
      intro _ f hf
      exact absurd hf (List.not_mem_nil f)
  | cons g gs ih =>
      intro mvfr f hf hnotrec R
      rcases List.mem_cons.mp hf with rfl | hf2
      · have hli : load_intervals env f = .error (.valueError invalidFeatureMsg) := by
          unfold load_intervals
          rw [if_neg hnotrec]
        simp [annotateLoop, annotateStep, hli]
      · cases hstep : annotateStep env sv mv dv mvfr g with
        | error e => simp [annotateLoop, hstep]
        | ok m2 =>
            simp only [annotateLoop, hstep]
            exact ih m2 f hf2 hnotrec R

/-- C6: an unrecognized feature name is rejected by `load_intervals` with a
`ValueError` whose message lists the recognized set (each recognized name
occurs in the message), `load_movement_and_intervals` never returns a frame
when such a feature is requested (so no column is appended for it), and a
recognized feature never triggers this error. -/
theorem invalid_feature_rejected :
    ∀ (env : DataEnv) (f : String),
      (∀ g ∈ INTERVAL_FEATURES, g.data <:+: invalidFeatureMsg.data) ∧
      (f ∉ INTERVAL_FEATURES →
        load_intervals env f = .error (.valueError invalidFeatureMsg) ∧
        ∀ (strain mouse day : PyNum) (features : List String)
          (R : MovementFrame),
          f ∈ features →
          load_movement_and_intervals env strain mouse day features ≠ .ok R) ∧
      (f ∈ INTERVAL_FEATURES →
        load_intervals env f ≠ .error (.valueError invalidFeatureMsg)) := by
  intro env f
  refine ⟨by decide, fun hnot => ⟨?_, ?_⟩, fun hmem => ?_⟩
  · unfold load_intervals
    rw [if_neg hnot]
  · intro s m d features R hf
    unfold load_movement_and_intervals
    cases hlm : load_movement env s m d with
    | error e => simp
    | ok movements =>
        exact annotateLoop_unrecognized env s.val m.val d.val features
          movements f hf hnot R
  · unfold load_intervals
    rw [if_pos hmem]
    by_cases hlen : (env.intervalFiles f).length = 0
    · rw [if_pos hlen]
      intro h
      rw [Except.error.injEq, LoadError.valueError.injEq] at h
      exact absurd h (by decide)
    · rw [if_neg hlen]
      intro h
      exact Except.noConfusion h

/-- C6 witness: the unrecognized name XYZ is rejected and blocks annotation;
the recognized name AS is not rejected. -/
theorem invalid_feature_rejected_witness :
    load_intervals env0 "XYZ" = .error (.valueError invalidFeatureMsg) ∧
    (∀ R, load_movement_and_intervals env0 (.int 0) (.int 0) (.int 0)
      ["XYZ"] ≠ .ok R) ∧
    load_intervals env0 "AS" ≠ .error (.valueError invalidFeatureMsg) := by
  refine ⟨((invalid_feature_rejected env0 "XYZ").2.1 (by decide)).1, ?_,
    (invalid_feature_rejected env0 "AS").2.2 (by decide)⟩
  intro R
  exact ((invalid_feature_rejected env0 "XYZ").2.1 (by decide)).2
    (.int 0) (.int 0) (.int 0) ["XYZ"] R (by decide)

/-- C7 counterexample: the two rejection cases do not raise the same error:
a negative key raises `ValueError` while a non-integer key raises
`TypeError`, and these are distinct errors. -/
theorem load_movement_error_kinds_differ :
    load_movement env0 (.int (-1)) (.int 0) (.int 0) =
      .error (.valueError "Input values need to be nonnegative") ∧
    load_movement env0 (.float (3/2)) (.int 0) (.int 0) =
      .error (.typeError "Input values need to be integer") ∧
    LoadError.valueError "Input values need to be nonnegative" ≠
      LoadError.typeError "Input values need to be integer" := by
  refine ⟨?_, ?_, by decide⟩
  · unfold load_movement
    rw [if_pos]
    exact Or.inl (by norm_num [PyNum.val])
  · unfold load_movement
    rw [if_neg, if_pos]
    · exact Or.inl rfl
    · push_neg
      refine ⟨by norm_num [PyNum.val], by norm_num [PyNum.val],
        by norm_num [PyNum.val]⟩

/-- C7 as amended: a negative key raises the `ValueError`
"Input values need to be nonnegative"; a nonnegative but non-integer key
raises the `TypeError` "Input values need to be integer"; nonnegative
integer keys raise neither and the load succeeds. -/
theorem load_movement_error_taxonomy :
    ∀ (env : DataEnv) (s m d : PyNum),
      ((s.val < 0 ∨ m.val < 0 ∨ d.val < 0) →
        load_movement env s m d =
          .error (.valueError "Input values need to be nonnegative")) ∧
      ((0 ≤ s.val ∧ 0 ≤ m.val ∧ 0 ≤ d.val) →
        (s.isInt = false ∨ m.isInt = false ∨ d.isInt = false) →
        load_movement env s m d =
          .error (.typeError "Input values need to be integer")) ∧
      (∀ (a b c : Int), 0 ≤ a → 0 ≤ b → 0 ≤ c →
        s = .int a → m = .int b → d = .int c →
        ∃ M, load_movement env s m d = .ok M) := by
  intro env s m d
  refine ⟨fun hneg => ?_, fun hpos htype => ?_, ?_⟩
  · unfold load_movement
    rw [if_pos hneg]
  · unfold load_movement
    rw [if_neg, if_pos htype]
    push_neg
    exact hpos
  · rintro a b c ha hb hc rfl rfl rfl
    have h1 : ¬((PyNum.int a).val < 0 ∨ (PyNum.int b).val < 0 ∨
        (PyNum.int c).val < 0) := by
      push_neg
      refine ⟨?_, ?_, ?_⟩ <;> simp only [PyNum.val]
      · exact_mod_cast ha
      · exact_mod_cast hb
      · exact_mod_cast hc
    have h2 : ¬((PyNum.int a).isInt = false ∨ (PyNum.int b).isInt = false ∨
        (PyNum.int c).isInt = false) := by
      simp [PyNum.isInt]
    refine ⟨⟨(env.movement (.int a) (.int b) (.int c)).CT,
      (env.movement (.int a) (.int b) (.int c)).CX,
      (env.movement (.int a) (.int b) (.int c)).CY,
      (env.movement (.int a) (.int b) (.int c)).NHB.map not, []⟩, ?_⟩
    unfold load_movement
    rw [if_neg h1, if_neg h2]

/-- C7 amended witness: the three cases at concrete inputs. -/
theorem load_movement_error_taxonomy_witness :
    load_movement env0 (.int (-1)) (.int 0) (.int 0) =
      .error (.valueError "Input values need to be nonnegative") ∧
    load_movement env0 (.float (3/2)) (.int 0) (.int 0) =
      .error (.typeError "Input values need to be integer") ∧
    ∃ M, load_movement env0 (.int 1) (.int 0) (.int 0) = .ok M :=
  ⟨(load_movement_error_taxonomy env0 (.int (-1)) (.int 0) (.int 0)).1
      (Or.inl (by norm_num [PyNum.val])),
    (load_movement_error_taxonomy env0 (.float (3/2)) (.int 0) (.int 0)).2.1
      ⟨by norm_num [PyNum.val], by norm_num [PyNum.val], by norm_num [PyNum.val]⟩
      (Or.inl rfl),
    (load_movement_error_taxonomy env0 (.int 1) (.int 0) (.int 0)).2.2
      1 0 0 (by norm_num) (by norm_num) (by norm_num) rfl rfl rfl⟩

/-- C8: for a recognized feature whose interval source holds no files at
all, `load_intervals` raises the empty-directory `ValueError` instead of
returning a table. -/
theorem empty_source_raises :
    ∀ (env : DataEnv) (f : String),
      f ∈ INTERVAL_FEATURES → env.intervalFiles f = [] →
      load_intervals env f = .error (.valueError emptyDirMsg) := by
  intro env f hf he
  unfold load_intervals
  rw [if_pos hf, if_pos]
  rw [he]
  rfl

/-- C8 witness: the feature AS against the environment with empty interval
directories. -/
theorem empty_source_raises_witness :
    load_intervals envEmpty "AS" = .error (.valueError emptyDirMsg) :=
  empty_source_raises envEmpty "AS" (by decide) rfl

/-- C10: the nonnegativity check runs before the integer-type check: any
negative key raises the `ValueError` "Input values need to be nonnegative",
never the `TypeError`, even when the key is also non-integer. -/
theorem value_check_precedes_type_check :
    ∀ (env : DataEnv) (s m d : PyNum),
      (s.val < 0 ∨ m.val < 0 ∨ d.val < 0) →
      load_movement env s m d =
        .error (.valueError "Input values need to be nonnegative") ∧
      load_movement env s m d ≠
        .error (.typeError "Input values need to be integer") := by
  intro env s m d hneg
  have h : load_movement env s m d =
      .error (.valueError "Input values need to be nonnegative") := by
    unfold load_movement
    rw [if_pos hneg]
  refine ⟨h, ?_⟩
  rw [h]
  intro hcontra
  rw [Except.error.injEq] at hcontra
  exact LoadError.noConfusion hcontra

/-- C10 witness: a key that is both negative and non-integer gets the
`ValueError`, not the `TypeError`. -/
theorem value_check_precedes_type_check_witness :
    load_movement env0 (.float (-3/2)) (.int 0) (.int 0) =
      .error (.valueError "Input values need to be nonnegative") ∧
    load_movement env0 (.float (-3/2)) (.int 0) (.int 0) ≠
      .error (.typeError "Input values need to be integer") :=
  value_check_precedes_type_check env0 (.float (-3/2)) (.int 0) (.int 0)
    (Or.inl (by norm_num [PyNum.val]))

end Mousestyles
